import Mathlib

/-!
# SPOOF native CUDA context: the typed execution dispatcher

A shallow embedding of `SpoofCudaContext::execute_kernel`
(`src/main/cpp/spoof_native_cuda/spoof_native_cuda.h`) and of the two JNI entry
points that call it (`src/main/cuda/spoof/jni_bridge.cpp`).

The C++ code is a straight-line sequence of CUDA runtime calls.  It is embedded
as a function on an explicit machine state that holds host memory, device
memory, the table of outstanding device allocations, the sequence of device
operations issued so far and the text written to `std::cout`.

Conventions.
* Addresses, byte counts and bit patterns are natural numbers; `size_t`
  arithmetic is reduced modulo `2 ^ 64`, `unsigned int` modulo `2 ^ 32`.
* Memory is byte addressed and little endian.
* A floating point value is represented by its IEEE-754 bit pattern.
* The CUDA runtime and the jitify launcher are external libraries.  Their calls
  are modelled as always succeeding, which is what the source assumes: it
  ignores every return code.
-/

namespace Spoof

/-! ## Machine integers -/

/-- Conversion of a C `int` to `size_t` (64 bit, modular). -/
def to_size_t (i : Int) : Nat := (i % 2 ^ 64).toNat

/-- Conversion of a C `int` to `unsigned int` (32 bit, modular), as performed by
the constructor `dim3(unsigned int, unsigned int, unsigned int)`. -/
def to_unsigned (i : Int) : Nat := (i % 2 ^ 32).toNat

/-- Conversion of a `jlong` to a C `int` (two's complement truncation), as
performed when a `jlong` is passed for an `int` parameter. -/
def to_int (i : Int) : Int := (i + 2 ^ 31) % 2 ^ 32 - 2 ^ 31

/-! ## Element types -/

/-- The element type `T` of the template: `float` or `double`. -/
inductive ElemType where
  | float32
  | float64
  deriving DecidableEq, Repr

/-- The value of `sizeof(T)`. -/
def sizeof : ElemType → Nat
  | .float32 => 4
  | .float64 => 8

/-- Division of `m` by `2 ^ k`, rounded to nearest, ties to even. -/
def round_shift (m k : Nat) : Nat :=
  let q := m / 2 ^ k
  let r := m % 2 ^ k
  if 2 ^ k < 2 * r ∨ (2 * r = 2 ^ k ∧ q % 2 = 1) then q + 1 else q

/-- The implicit conversion `double → float` on bit patterns (IEEE-754, round to
nearest even; a NaN becomes a quiet NaN keeping the top payload bits). -/
def double_to_float (b : Nat) : Nat :=
  let s := b / 2 ^ 63 % 2
  let e := b / 2 ^ 52 % 2048
  let f := b % 2 ^ 52
  let mag :=
    if e = 2047 then
      if f = 0 then 0x7f800000 else 0x7fc00000 + f / 2 ^ 29 % 2 ^ 22
    else if e = 0 then 0
    else if 897 ≤ e then
      min ((e - 896) * 2 ^ 23 + (round_shift (2 ^ 52 + f) 29 - 2 ^ 23)) 0x7f800000
    else round_shift (2 ^ 52 + f) (926 - e)
  s * 2 ^ 31 + mag

/-- The conversion applied by `return result;`, where `result` is a `double`
and the function returns `T`. -/
def double_to_T : ElemType → Nat → Nat
  | .float32, b => double_to_float b
  | .float64, b => b % 2 ^ 64

/-! ## Memory -/

/-- Byte addressed memory. -/
abbrev Mem := Nat → Nat

/-- The `count` bytes stored from address `addr` on. -/
def read_bytes (mem : Mem) (addr count : Nat) : List Nat :=
  (List.range count).map fun i => mem (addr + i) % 256

/-- The number a little endian byte sequence stands for. -/
def le_value (bs : List Nat) : Nat :=
  bs.foldr (fun b acc => b % 256 + 256 * acc) 0

/-- The little endian byte sequence of length `count` of a number. -/
def le_bytes (v count : Nat) : List Nat :=
  (List.range count).map fun i => v / 256 ^ i % 256

/-- Reading a pointer (8 bytes) from memory. -/
def read_ptr (mem : Mem) (addr : Nat) : Nat :=
  le_value (read_bytes mem addr 8)

/-- Memory `dst_mem` after `count` bytes of `src_mem` from address `src` on were
copied to address `dst`. -/
def copy_bytes (dst_mem : Mem) (dst : Nat) (src_mem : Mem) (src count : Nat) : Mem :=
  fun a => if dst ≤ a ∧ a < dst + count then src_mem (src + (a - dst)) % 256 else dst_mem a

/-- Memory after the bytes `bs` were stored from address `addr` on. -/
def write_bytes (mem : Mem) (addr : Nat) (bs : List Nat) : Mem :=
  fun a => if addr ≤ a ∧ a < addr + bs.length then bs.getD (a - addr) 0 % 256 else mem a

/-! ## Device operations -/

/-- The type `dim3` of CUDA: three unsigned extents. -/
structure Dim3 where
  x : Nat
  y : Nat
  z : Nat
  deriving DecidableEq, Repr

/-- The constructor `dim3(vx, vy = 1, vz = 1)` applied to one argument `1`. -/
def dim3_1 : Dim3 := ⟨1, 1, 1⟩

/-- The constructor `dim3(vx, vy, vz = 1)` applied to two `int` arguments. -/
def dim3_2 (vx vy : Int) : Dim3 := ⟨to_unsigned vx, to_unsigned vy, 1⟩

/-- The number of threads of a launch with the given grid and block. -/
def thread_count (grid block : Dim3) : Nat :=
  grid.x * grid.y * grid.z * (block.x * block.y * block.z)

/-- One argument of a kernel launch: a pointer or an `int`. -/
inductive Arg where
  | ptr (a : Nat)
  | int (i : Int)
  deriving DecidableEq, Repr

/-- The direction argument of `cudaMemcpy`. -/
inductive MemcpyKind where
  | HostToDevice
  | DeviceToHost
  deriving DecidableEq, Repr

/-- The destination of a `cudaMemcpy`: an address, or the local variable
`result` of `execute_kernel` (the call passes `&result`). -/
inductive Dst where
  | addr (a : Nat)
  | result_var
  deriving DecidableEq, Repr

/-- A device operation, as issued through the CUDA runtime or the launcher. -/
inductive DevOp where
  | malloc (ptr size : Nat)
  | memcpy (dst : Dst) (src count : Nat) (kind : MemcpyKind)
  | launch (kernel : String) (type : ElemType) (grid block : Dim3) (args : List Arg)
  | synchronize
  | free (ptr : Nat)
  deriving DecidableEq, Repr

/-- The kind of a device operation, without its arguments. -/
inductive OpKind where
  | malloc
  | memcpyH2D
  | memcpyD2H
  | launch
  | synchronize
  | free
  deriving DecidableEq, Repr

/-- The kind of a device operation. -/
def DevOp.kind : DevOp → OpKind
  | .malloc _ _ => .malloc
  | .memcpy _ _ _ .HostToDevice => .memcpyH2D
  | .memcpy _ _ _ .DeviceToHost => .memcpyD2H
  | .launch _ _ _ _ _ => .launch
  | .synchronize => .synchronize
  | .free _ => .free

/-! ## The context -/

/-- The enumeration `SpoofOperator::AggType`. -/
inductive AggType where
  | NO_AGG
  | ROW_AGG
  | COL_AGG
  | FULL_AGG
  deriving DecidableEq, Repr

/-- The type `jitify::Program`: a compiled program, given by what the kernel
with a name, instantiated for a type and launched with a grid, a block and
arguments, does to device memory. -/
structure Program where
  run : String → ElemType → Dim3 → Dim3 → List Arg → Mem → Mem

/-- The structure `SpoofOperator`. -/
structure SpoofOperator where
  program : Program
  agg_type : AggType

/-- The class `SpoofCudaContext`: the registry `ops`, a `std::map` from kernel
name to operator, as an association list (`find` is `List.lookup`).  The member
`kernel_cache` is not used by `execute_kernel`. -/
structure SpoofCudaContext where
  ops : List (String × SpoofOperator)

/-- The machine state `execute_kernel` runs on. -/
structure State where
  /-- host memory -/
  host : Mem
  /-- device memory -/
  dev : Mem
  /-- outstanding device allocations: pointer and size -/
  allocs : List (Nat × Nat)
  /-- the address the next device allocation gets -/
  brk : Nat
  /-- the device operations issued so far, oldest first -/
  log : List DevOp
  /-- the text written to `std::cout` so far, oldest first -/
  stdout : List String

/-! ## The CUDA runtime and the launcher -/

/-- The call `std::cout << ... << std::endl`. -/
def cout (s : State) (line : String) : State :=
  { s with stdout := s.stdout ++ [line ++ "\n"] }

/-- The call `cudaMalloc(&p, size)`: returns the new pointer `p`.  Allocations
are 256 byte aligned and never overlap. -/
def cudaMalloc (s : State) (size : Nat) : Nat × State :=
  (s.brk,
   { s with
     allocs := (s.brk, size) :: s.allocs
     brk := s.brk + 256 * (size / 256 + 1)
     log := s.log ++ [.malloc s.brk size] })

/-- The call `cudaMemcpy(dst, src, count, cudaMemcpyHostToDevice)`. -/
def cudaMemcpy_HostToDevice (s : State) (dst src count : Nat) : State :=
  { s with
    dev := copy_bytes s.dev dst s.host src count
    log := s.log ++ [.memcpy (.addr dst) src count .HostToDevice] }

/-- The call `cudaMemcpy(&result, src, count, cudaMemcpyDeviceToHost)` with
the 8 bytes `result` of the local variable: its first `count` bytes are
replaced by the device memory at `src`.  The direction says that `src` is a
device address, and it is read as one. -/
def cudaMemcpy_DeviceToHost_result (s : State) (result : List Nat) (src count : Nat) :
    List Nat × State :=
  (read_bytes s.dev src count ++ result.drop count,
   { s with log := s.log ++ [.memcpy .result_var src count .DeviceToHost] })

/-- The call `program.kernel(name).instantiate(type).configure(grid, block).launch(args)`. -/
def launch (s : State) (program : Program) (name : String) (type : ElemType)
    (grid block : Dim3) (args : List Arg) : State :=
  { s with
    dev := program.run name type grid block args s.dev
    log := s.log ++ [.launch name type grid block args] }

/-- The call `cudaDeviceSynchronize()`. -/
def cudaDeviceSynchronize (s : State) : State :=
  { s with log := s.log ++ [.synchronize] }

/-- Removes the first allocation at pointer `p` from an allocation table. -/
def release (p : Nat) : List (Nat × Nat) → List (Nat × Nat)
  | [] => []
  | a :: as => if a.1 = p then as else a :: release p as

/-- The call `cudaFree(p)`. -/
def cudaFree (s : State) (p : Nat) : State :=
  { s with
    allocs := release p s.allocs
    log := s.log ++ [.free p] }

/-! ## `execute_kernel` -/

/-- The value of `jitify::reflection::type_of(result)` for the local variable
`double result`. -/
def type_of_result : ElemType := .float64

/-- The size `dev_buf_size` computed by `execute_kernel` (lines 53 to 57). -/
def dev_buf_size (T : ElemType) (agg_type : AggType) (num_scalars : Int) : Nat :=
  if agg_type = .FULL_AGG then
    (sizeof T * to_size_t num_scalars % 2 ^ 64 + 1) % 2 ^ 64
  else
    sizeof T * to_size_t num_scalars % 2 ^ 64

/-- The pointer `scalars_ptr + num_scalars * sizeof(T)` of line 70: arithmetic
on a `T *`, so the offset is counted in elements of `T`. -/
def result_src (T : ElemType) (scalars_ptr : Nat) (num_scalars : Int) : Nat :=
  (scalars_ptr + sizeof T * (to_size_t num_scalars * sizeof T % 2 ^ 64)) % 2 ^ 64

/-- The member function template `SpoofCudaContext::execute_kernel<T>`.
Returns the bit pattern of the returned `T` and the state after the call. -/
def execute_kernel (T : ElemType) (ctx : SpoofCudaContext) (name : String)
    (in_ptrs : Nat) (num_inputs : Int) (side_ptrs : Nat) (num_sides : Int)
    (out_ptr scalars_ptr : Nat) (num_scalars m n grix : Int) (s : State) : Nat × State :=
  let result : List Nat := le_bytes 0 8
  match ctx.ops.lookup name with
  | some op =>
    let s := cout s ("launching kernel " ++ name)
    let grid := dim3_1
    let block := dim3_2 m n
    let s := cout s ("launching " ++ toString block.x ++ "x" ++ toString block.y
      ++ "==" ++ toString (block.x * block.y % 2 ^ 32) ++ " threads")
    let size := dev_buf_size T op.agg_type num_scalars
    let (d_scalars, s) := cudaMalloc s size
    let s := cudaMemcpy_HostToDevice s d_scalars scalars_ptr size
    let s := launch s op.program name type_of_result grid block
      [.ptr (read_ptr s.host in_ptrs), .ptr side_ptrs, .ptr out_ptr, .ptr d_scalars,
       .int m, .int n, .int grix, .int 0, .int 0]
    let s := cudaDeviceSynchronize s
    let (result, s) :=
      if op.agg_type = .FULL_AGG then
        cudaMemcpy_DeviceToHost_result s result (result_src T scalars_ptr num_scalars) (sizeof T)
      else (result, s)
    let s := cudaFree s d_scalars
    (double_to_T T (le_value result), s)
  | none =>
    let s := cout s ("kernel " ++ name ++ " not found.")
    (double_to_T T (le_value result), s)

/-! ## The JNI entry points -/

/-- A primitive Java array as the bridge sees it: the address
`GetPrimitiveArrayCritical` hands out and the length `GetArrayLength` reports. -/
structure JArray where
  elems : Nat
  length : Nat

/-- The entry point `Java_org_apache_sysds_runtime_codegen_SpoofNativeCUDA_execute_1d`. -/
def execute_d (ctx : SpoofCudaContext) (name : String) (in_ptrs side_ptrs : JArray)
    (out_ptr : Nat) (scalars_ : JArray) (m n grix : Int) (s : State) : Nat × State :=
  execute_kernel .float64 ctx name in_ptrs.elems in_ptrs.length side_ptrs.elems
    side_ptrs.length out_ptr scalars_.elems scalars_.length (to_int m) (to_int n) (to_int grix) s

/-- The entry point `Java_org_apache_sysds_runtime_codegen_SpoofNativeCUDA_execute_1f`. -/
def execute_f (ctx : SpoofCudaContext) (name : String) (in_ptrs side_ptrs : JArray)
    (out_ptr : Nat) (scalars_ : JArray) (m n grix : Int) (s : State) : Nat × State :=
  execute_kernel .float32 ctx name in_ptrs.elems in_ptrs.length side_ptrs.elems
    side_ptrs.length out_ptr scalars_.elems scalars_.length (to_int m) (to_int n) (to_int grix) s

/-! ## Observations on a call -/

/-- The device operations issued between the state `before` and the later
state `after`. -/
def issued (before after : State) : List DevOp :=
  after.log.drop before.log.length

/-- In the sequence `l`, the kind `a` occurs strictly before the kind `b`. -/
def occurs_before (a b : OpKind) (l : List OpKind) : Prop :=
  l.indexOf a < l.indexOf b ∧ l.indexOf b < l.length

instance (a b : OpKind) (l : List OpKind) : Decidable (occurs_before a b l) := by
  unfold occurs_before
  infer_instance

/-- The device operations of a call that finds its kernel: the operator is
`op`, the device buffer is allocated at `d`. -/
def found_ops (T : ElemType) (op : SpoofOperator) (name : String) (in0 side_ptrs out_ptr
    scalars_ptr : Nat) (num_scalars m n grix : Int) (d : Nat) : List DevOp :=
  [.malloc d (dev_buf_size T op.agg_type num_scalars),
   .memcpy (.addr d) scalars_ptr (dev_buf_size T op.agg_type num_scalars) .HostToDevice,
   .launch name type_of_result dim3_1 (dim3_2 m n)
     [.ptr in0, .ptr side_ptrs, .ptr out_ptr, .ptr d, .int m, .int n, .int grix, .int 0, .int 0],
   .synchronize]
  ++ (if op.agg_type = .FULL_AGG then
        [.memcpy .result_var (result_src T scalars_ptr num_scalars) (sizeof T) .DeviceToHost]
      else [])
  ++ [.free d]

/-- The grid and the block of each launch in a sequence of operations. -/
def launch_geometry : List DevOp → List (Dim3 × Dim3)
  | [] => []
  | .launch _ _ grid block _ :: l => (grid, block) :: launch_geometry l
  | _ :: l => launch_geometry l

/-- The type each launch in a sequence of operations is instantiated for. -/
def launch_types : List DevOp → List ElemType
  | [] => []
  | .launch _ type _ _ _ :: l => type :: launch_types l
  | _ :: l => launch_types l

/-! ## Concrete inputs -/

/-- A state with zeroed memories, no allocation and no operation issued; device
addresses start at `2 ^ 32`. -/
def fresh_state : State := ⟨fun _ => 0, fun _ => 0, [], 2 ^ 32, [], []⟩

/-- A device program that stores the value `c`, as an element of type `T`, at
index `idx` of the buffer its fourth argument points to, and does nothing else. -/
def slot_writer (T : ElemType) (idx c : Nat) : Program :=
  ⟨fun _ _ _ _ args mem =>
    match args[3]? with
    | some (Arg.ptr d) => write_bytes mem (d + idx * sizeof T) (le_bytes c (sizeof T))
    | _ => mem⟩

/-- A context whose registry holds one kernel, `"k"`, with the given program
and aggregation kind. -/
def single_kernel (program : Program) (agg_type : AggType) : SpoofCudaContext :=
  ⟨[("k", ⟨program, agg_type⟩)]⟩

/-- The bit pattern of the `double` 42.0. -/
def bits_42 : Nat := 0x4045000000000000

/-! ## Lemmas -/

theorem release_head (p size : Nat) (as : List (Nat × Nat)) :
    release p ((p, size) :: as) = as := by
  simp [release]

theorem le_value_zero : le_value (le_bytes 0 8) = 0 := by
  decide

theorem double_to_T_zero (T : ElemType) : double_to_T T 0 = 0 := by
  cases T <;> decide

theorem issued_append (s t : State) (l : List DevOp) (h : t.log = s.log ++ l) :
    issued s t = l := by
  simp [issued, h]

theorem lookup_none_of_not_key (ops : List (String × SpoofOperator)) (name : String)
    (h : name ∉ ops.map Prod.fst) : ops.lookup name = none := by
  induction ops with
  | nil => rfl
  | cons a as ih =>
    obtain ⟨k, v⟩ := a
    simp only [List.map_cons, List.mem_cons, not_or] at h
    have hk : (name == k) = false := by simpa using h.1
    simp [List.lookup, hk, ih h.2]

theorem to_size_t_of_nonneg (i : Int) (h0 : 0 ≤ i) (h1 : i < 2 ^ 31) :
    to_size_t i = i.toNat := by
  unfold to_size_t
  rw [Int.emod_eq_of_lt h0 (by omega)]

theorem to_unsigned_of_nonneg (i : Int) (h0 : 0 ≤ i) (h1 : i < 2 ^ 31) :
    to_unsigned i = i.toNat := by
  unfold to_unsigned
  rw [Int.emod_eq_of_lt h0 (by omega)]

theorem sizeof_le (T : ElemType) : sizeof T ≤ 8 := by
  cases T <;> decide

/-- The value of `dev_buf_size` for a count in the range of a Java array
length: one byte, not one element, is added for FULL. -/
theorem dev_buf_size_of_nonneg (T : ElemType) (agg_type : AggType) (num_scalars : Int)
    (h0 : 0 ≤ num_scalars) (h1 : num_scalars < 2 ^ 31) :
    dev_buf_size T agg_type num_scalars
      = sizeof T * num_scalars.toNat + (if agg_type = .FULL_AGG then 1 else 0) := by
  have hs := sizeof_le T
  have hn : num_scalars.toNat < 2 ^ 31 := by omega
  have hp : sizeof T * num_scalars.toNat < 2 ^ 34 := by
    calc sizeof T * num_scalars.toNat ≤ 8 * num_scalars.toNat := Nat.mul_le_mul_right _ hs
      _ < 2 ^ 34 := by omega
  unfold dev_buf_size
  rw [to_size_t_of_nonneg num_scalars h0 h1]
  by_cases hf : agg_type = .FULL_AGG
  · simp only [hf, if_true]
    omega
  · simp only [hf, if_false]
    omega

/-- The log after a call that finds its kernel. -/
theorem execute_kernel_found_log (T : ElemType) (ctx : SpoofCudaContext) (name : String)
    (in_ptrs : Nat) (num_inputs : Int) (side_ptrs : Nat) (num_sides : Int)
    (out_ptr scalars_ptr : Nat) (num_scalars m n grix : Int) (s : State) (op : SpoofOperator)
    (h : ctx.ops.lookup name = some op) :
    (execute_kernel T ctx name in_ptrs num_inputs side_ptrs num_sides out_ptr scalars_ptr
      num_scalars m n grix s).2.log
      = s.log ++ found_ops T op name (read_ptr s.host in_ptrs) side_ptrs out_ptr scalars_ptr
          num_scalars m n grix s.brk := by
  unfold execute_kernel
  simp only [h]
  by_cases hf : op.agg_type = .FULL_AGG <;>
    simp [hf, found_ops, cout, cudaMalloc, cudaMemcpy_HostToDevice, launch,
      cudaDeviceSynchronize, cudaMemcpy_DeviceToHost_result, cudaFree]

/-- The operations issued by a call that finds its kernel. -/
theorem execute_kernel_found_issued (T : ElemType) (ctx : SpoofCudaContext) (name : String)
    (in_ptrs : Nat) (num_inputs : Int) (side_ptrs : Nat) (num_sides : Int)
    (out_ptr scalars_ptr : Nat) (num_scalars m n grix : Int) (s : State) (op : SpoofOperator)
    (h : ctx.ops.lookup name = some op) :
    issued s (execute_kernel T ctx name in_ptrs num_inputs side_ptrs num_sides out_ptr
      scalars_ptr num_scalars m n grix s).2
      = found_ops T op name (read_ptr s.host in_ptrs) side_ptrs out_ptr scalars_ptr
          num_scalars m n grix s.brk :=
  issued_append _ _ _ (execute_kernel_found_log T ctx name in_ptrs num_inputs side_ptrs
    num_sides out_ptr scalars_ptr num_scalars m n grix s op h)

/-- The allocation table after a call that finds its kernel. -/
theorem execute_kernel_found_allocs (T : ElemType) (ctx : SpoofCudaContext) (name : String)
    (in_ptrs : Nat) (num_inputs : Int) (side_ptrs : Nat) (num_sides : Int)
    (out_ptr scalars_ptr : Nat) (num_scalars m n grix : Int) (s : State) (op : SpoofOperator)
    (h : ctx.ops.lookup name = some op) :
    (execute_kernel T ctx name in_ptrs num_inputs side_ptrs num_sides out_ptr scalars_ptr
      num_scalars m n grix s).2.allocs = s.allocs := by
  unfold execute_kernel
  simp only [h]
  by_cases hf : op.agg_type = .FULL_AGG <;>
    simp [hf, cout, cudaMalloc, cudaMemcpy_HostToDevice, launch,
      cudaDeviceSynchronize, cudaMemcpy_DeviceToHost_result, cudaFree, release]

/-- The state after a call that does not find its kernel. -/
theorem execute_kernel_missing (T : ElemType) (ctx : SpoofCudaContext) (name : String)
    (in_ptrs : Nat) (num_inputs : Int) (side_ptrs : Nat) (num_sides : Int)
    (out_ptr scalars_ptr : Nat) (num_scalars m n grix : Int) (s : State)
    (h : ctx.ops.lookup name = none) :
    execute_kernel T ctx name in_ptrs num_inputs side_ptrs num_sides out_ptr scalars_ptr
      num_scalars m n grix s = (0, cout s ("kernel " ++ name ++ " not found.")) := by
  unfold execute_kernel
  simp only [h, le_value_zero, double_to_T_zero]

/-- The value a call returns for a registered FULL kernel: the first
`sizeof(T)` bytes of `result` are read from device memory at the address
`scalars_ptr + num_scalars * sizeof(T)` (in elements), after the launch. -/
theorem execute_kernel_full_agg_value (T : ElemType) (ctx : SpoofCudaContext) (name : String)
    (in_ptrs : Nat) (num_inputs : Int) (side_ptrs : Nat) (num_sides : Int)
    (out_ptr scalars_ptr : Nat) (num_scalars m n grix : Int) (s : State) (op : SpoofOperator)
    (h : ctx.ops.lookup name = some op) (hf : op.agg_type = .FULL_AGG) :
    (execute_kernel T ctx name in_ptrs num_inputs side_ptrs num_sides out_ptr scalars_ptr
      num_scalars m n grix s).1
      = double_to_T T (le_value
          (read_bytes
            (op.program.run name type_of_result dim3_1 (dim3_2 m n)
              [.ptr (read_ptr s.host in_ptrs), .ptr side_ptrs, .ptr out_ptr, .ptr s.brk,
               .int m, .int n, .int grix, .int 0, .int 0]
              (copy_bytes s.dev s.brk s.host scalars_ptr
                (dev_buf_size T op.agg_type num_scalars)))
            (result_src T scalars_ptr num_scalars) (sizeof T)
          ++ (le_bytes 0 8).drop (sizeof T))) := by
  unfold execute_kernel
  simp only [h]
  simp [hf, cout, cudaMalloc, cudaMemcpy_HostToDevice, launch,
    cudaDeviceSynchronize, cudaMemcpy_DeviceToHost_result, cudaFree]

/-- Every launch of `execute_kernel` is instantiated for `double`, whatever `T` is. -/
theorem execute_kernel_launch_type (T : ElemType) (ctx : SpoofCudaContext) (name : String)
    (in_ptrs : Nat) (num_inputs : Int) (side_ptrs : Nat) (num_sides : Int)
    (out_ptr scalars_ptr : Nat) (num_scalars m n grix : Int) (s : State) (op : SpoofOperator)
    (h : ctx.ops.lookup name = some op) :
    launch_types (issued s (execute_kernel T ctx name in_ptrs num_inputs side_ptrs num_sides
      out_ptr scalars_ptr num_scalars m n grix s).2) = [.float64] := by
  rw [execute_kernel_found_issued T ctx name in_ptrs num_inputs side_ptrs num_sides out_ptr
    scalars_ptr num_scalars m n grix s op h]
  by_cases hf : op.agg_type = .FULL_AGG <;>
    simp [found_ops, hf, launch_types, type_of_result]

/-! ## Claims -/

/-- C1: for a kernel name that is not a key of the registry, `execute_kernel`
returns 0 and issues no device operation: nothing is added to the log, and the
allocation table, the device memory and the allocator are as before. -/
theorem execute_kernel_unknown_name (T : ElemType) (ctx : SpoofCudaContext) (name : String)
    (in_ptrs : Nat) (num_inputs : Int) (side_ptrs : Nat) (num_sides : Int)
    (out_ptr scalars_ptr : Nat) (num_scalars m n grix : Int) (s : State)
    (h : name ∉ ctx.ops.map Prod.fst) :
    (execute_kernel T ctx name in_ptrs num_inputs side_ptrs num_sides out_ptr scalars_ptr
      num_scalars m n grix s).1 = 0
    ∧ issued s (execute_kernel T ctx name in_ptrs num_inputs side_ptrs num_sides out_ptr
        scalars_ptr num_scalars m n grix s).2 = []
    ∧ (execute_kernel T ctx name in_ptrs num_inputs side_ptrs num_sides out_ptr scalars_ptr
        num_scalars m n grix s).2 = { s with stdout := s.stdout ++ ["kernel " ++ name ++ " not found." ++ "\n"] } := by
  rw [execute_kernel_missing T ctx name in_ptrs num_inputs side_ptrs num_sides out_ptr
    scalars_ptr num_scalars m n grix s (lookup_none_of_not_key ctx.ops name h)]
  refine ⟨rfl, ?_, ?_⟩
  · simp [issued, cout]
  · simp [cout]

/-- The statement of C1 at a concrete call: the name `"missing_kernel"` on a registry that holds only `"k"`. -/
theorem execute_kernel_unknown_name_witness :
    "missing_kernel" ∉ (single_kernel (slot_writer .float64 0 bits_42) .FULL_AGG).ops.map Prod.fst
    ∧ (execute_kernel .float64 (single_kernel (slot_writer .float64 0 bits_42) .FULL_AGG)
        "missing_kernel" 4096 1 8192 0 12288 16384 0 4 4 0 fresh_state).1 = 0
    ∧ issued fresh_state (execute_kernel .float64
        (single_kernel (slot_writer .float64 0 bits_42) .FULL_AGG)
        "missing_kernel" 4096 1 8192 0 12288 16384 0 4 4 0 fresh_state).2 = []
    ∧ (execute_kernel .float64 (single_kernel (slot_writer .float64 0 bits_42) .FULL_AGG)
        "missing_kernel" 4096 1 8192 0 12288 16384 0 4 4 0 fresh_state).2
        = { fresh_state with
            stdout := fresh_state.stdout ++ ["kernel " ++ "missing_kernel" ++ " not found." ++ "\n"] } :=
  ⟨by decide,
   execute_kernel_unknown_name .float64 (single_kernel (slot_writer .float64 0 bits_42) .FULL_AGG)
     "missing_kernel" 4096 1 8192 0 12288 16384 0 4 4 0 fresh_state (by decide)⟩

/-- C3: for a registered kernel whose aggregation kind is NONE, ROW or COLUMN,
`execute_kernel` returns 0, whatever the program and the other arguments are,
and none of the operations it issues is a device-to-host copy. -/
theorem execute_kernel_no_full_agg (T : ElemType) (ctx : SpoofCudaContext) (name : String)
    (in_ptrs : Nat) (num_inputs : Int) (side_ptrs : Nat) (num_sides : Int)
    (out_ptr scalars_ptr : Nat) (num_scalars m n grix : Int) (s : State) (op : SpoofOperator)
    (h : ctx.ops.lookup name = some op)
    (hagg : op.agg_type = .NO_AGG ∨ op.agg_type = .ROW_AGG ∨ op.agg_type = .COL_AGG) :
    (execute_kernel T ctx name in_ptrs num_inputs side_ptrs num_sides out_ptr scalars_ptr
      num_scalars m n grix s).1 = 0
    ∧ ∀ o ∈ issued s (execute_kernel T ctx name in_ptrs num_inputs side_ptrs num_sides out_ptr
        scalars_ptr num_scalars m n grix s).2, o.kind ≠ .memcpyD2H := by
  have hf : op.agg_type ≠ .FULL_AGG := by
    rcases hagg with e | e | e <;> simp [e]
  constructor
  · unfold execute_kernel
    simp only [h]
    simp [hf, le_value_zero, double_to_T_zero]
  · rw [execute_kernel_found_issued T ctx name in_ptrs num_inputs side_ptrs num_sides out_ptr
      scalars_ptr num_scalars m n grix s op h]
    intro o ho
    simp only [found_ops, hf, if_false, List.append_nil, List.cons_append, List.nil_append,
      List.mem_cons, List.mem_singleton, List.not_mem_nil, or_false] at ho
    rcases ho with e | e | e | e | e <;> simp [e, DevOp.kind]

/-- The statement of C3 at a concrete call: a ROW kernel, `float`, three scalars. -/
theorem execute_kernel_no_full_agg_witness :
    ((single_kernel (slot_writer .float32 3 bits_42) .ROW_AGG).ops.lookup "k"
        = some ⟨slot_writer .float32 3 bits_42, .ROW_AGG⟩
      ∧ ((⟨slot_writer .float32 3 bits_42, .ROW_AGG⟩ : SpoofOperator).agg_type = .NO_AGG
          ∨ (⟨slot_writer .float32 3 bits_42, .ROW_AGG⟩ : SpoofOperator).agg_type = .ROW_AGG
          ∨ (⟨slot_writer .float32 3 bits_42, .ROW_AGG⟩ : SpoofOperator).agg_type = .COL_AGG))
    ∧ (execute_kernel .float32 (single_kernel (slot_writer .float32 3 bits_42) .ROW_AGG)
        "k" 4096 1 8192 0 12288 16384 3 4 4 0 fresh_state).1 = 0
    ∧ ∀ o ∈ issued fresh_state (execute_kernel .float32
        (single_kernel (slot_writer .float32 3 bits_42) .ROW_AGG)
        "k" 4096 1 8192 0 12288 16384 3 4 4 0 fresh_state).2, o.kind ≠ .memcpyD2H :=
  ⟨⟨rfl, Or.inr (Or.inl rfl)⟩,
   execute_kernel_no_full_agg .float32 (single_kernel (slot_writer .float32 3 bits_42) .ROW_AGG)
     "k" 4096 1 8192 0 12288 16384 3 4 4 0 fresh_state ⟨slot_writer .float32 3 bits_42, .ROW_AGG⟩
     rfl (Or.inr (Or.inl rfl))⟩

/-- C5: every call of `execute_kernel`, whether the kernel is found or not and
whatever its aggregation kind is, leaves the table of outstanding device
allocations, and so their count, as it was before the call.  When the kernel
is found, the allocations and frees issued are exactly one `cudaMalloc`
followed by one `cudaFree` of the pointer that allocation returned; when it is
not found, no operation is issued. -/
theorem execute_kernel_allocations_balanced (T : ElemType) (ctx : SpoofCudaContext)
    (name : String) (in_ptrs : Nat) (num_inputs : Int) (side_ptrs : Nat) (num_sides : Int)
    (out_ptr scalars_ptr : Nat) (num_scalars m n grix : Int) (s : State) :
    (execute_kernel T ctx name in_ptrs num_inputs side_ptrs num_sides out_ptr scalars_ptr
      num_scalars m n grix s).2.allocs = s.allocs
    ∧ (execute_kernel T ctx name in_ptrs num_inputs side_ptrs num_sides out_ptr scalars_ptr
        num_scalars m n grix s).2.allocs.length = s.allocs.length
    ∧ (∀ op, ctx.ops.lookup name = some op →
        (issued s (execute_kernel T ctx name in_ptrs num_inputs side_ptrs num_sides out_ptr
          scalars_ptr num_scalars m n grix s).2).filter
            (fun o => decide (o.kind = .malloc ∨ o.kind = .free))
          = [.malloc s.brk (dev_buf_size T op.agg_type num_scalars), .free s.brk])
    ∧ (ctx.ops.lookup name = none →
        issued s (execute_kernel T ctx name in_ptrs num_inputs side_ptrs num_sides out_ptr
          scalars_ptr num_scalars m n grix s).2 = []) := by
  have hallocs : (execute_kernel T ctx name in_ptrs num_inputs side_ptrs num_sides out_ptr
      scalars_ptr num_scalars m n grix s).2.allocs = s.allocs := by
    cases h : ctx.ops.lookup name with
    | none =>
      rw [execute_kernel_missing T ctx name in_ptrs num_inputs side_ptrs num_sides out_ptr
        scalars_ptr num_scalars m n grix s h]
      rfl
    | some op =>
      exact execute_kernel_found_allocs T ctx name in_ptrs num_inputs side_ptrs num_sides
        out_ptr scalars_ptr num_scalars m n grix s op h
  refine ⟨hallocs, by rw [hallocs], ?_, ?_⟩
  · intro op h
    rw [execute_kernel_found_issued T ctx name in_ptrs num_inputs side_ptrs num_sides out_ptr
      scalars_ptr num_scalars m n grix s op h]
    by_cases hf : op.agg_type = .FULL_AGG <;> simp [found_ops, hf, DevOp.kind, List.filter]
  · intro h
    rw [execute_kernel_missing T ctx name in_ptrs num_inputs side_ptrs num_sides out_ptr
      scalars_ptr num_scalars m n grix s h]
    simp [issued, cout]

/-- C8: for a registered kernel and a request with at least one input, the
only launch issued has the argument list `(in_ptrs[0], side_ptrs, out_ptr,
d_scalars, m, n, grix, 0, 0)`, where `in_ptrs[0]` is the pointer stored in host
memory at `in_ptrs` and `d_scalars` is the pointer returned by the only
`cudaMalloc` of this call. -/
theorem execute_kernel_launch_arguments (T : ElemType) (ctx : SpoofCudaContext)
    (name : String) (in_ptrs : Nat) (num_inputs : Int) (side_ptrs : Nat) (num_sides : Int)
    (out_ptr scalars_ptr : Nat) (num_scalars m n grix : Int) (s : State) (op : SpoofOperator)
    (h : ctx.ops.lookup name = some op) (hn : 1 ≤ num_inputs) :
    ∃ d size type grid block,
      (issued s (execute_kernel T ctx name in_ptrs num_inputs side_ptrs num_sides out_ptr
        scalars_ptr num_scalars m n grix s).2).filter (fun o => decide (o.kind = .malloc))
        = [.malloc d size]
      ∧ (issued s (execute_kernel T ctx name in_ptrs num_inputs side_ptrs num_sides out_ptr
        scalars_ptr num_scalars m n grix s).2).filter (fun o => decide (o.kind = .launch))
        = [.launch name type grid block
            [.ptr (read_ptr s.host in_ptrs), .ptr side_ptrs, .ptr out_ptr, .ptr d,
             .int m, .int n, .int grix, .int 0, .int 0]] := by
  have _ := hn
  refine ⟨s.brk, dev_buf_size T op.agg_type num_scalars, type_of_result, dim3_1, dim3_2 m n, ?_⟩
  rw [execute_kernel_found_issued T ctx name in_ptrs num_inputs side_ptrs num_sides out_ptr
    scalars_ptr num_scalars m n grix s op h]
  by_cases hf : op.agg_type = .FULL_AGG <;> simp [found_ops, hf, DevOp.kind, List.filter]

/-- The statement of C8 at a concrete call: a COLUMN kernel, one input, `grix = 7`. -/
theorem execute_kernel_launch_arguments_witness :
    ((single_kernel (slot_writer .float64 0 bits_42) .COL_AGG).ops.lookup "k"
        = some ⟨slot_writer .float64 0 bits_42, .COL_AGG⟩ ∧ (1 : Int) ≤ 1)
    ∧ ∃ d size type grid block,
      (issued fresh_state (execute_kernel .float64
        (single_kernel (slot_writer .float64 0 bits_42) .COL_AGG)
        "k" 4096 1 8192 0 12288 16384 2 4 4 7 fresh_state).2).filter
          (fun o => decide (o.kind = .malloc))
        = [.malloc d size]
      ∧ (issued fresh_state (execute_kernel .float64
        (single_kernel (slot_writer .float64 0 bits_42) .COL_AGG)
        "k" 4096 1 8192 0 12288 16384 2 4 4 7 fresh_state).2).filter
          (fun o => decide (o.kind = .launch))
        = [.launch "k" type grid block
            [.ptr (read_ptr fresh_state.host 4096), .ptr 8192, .ptr 12288, .ptr d,
             .int 4, .int 4, .int 7, .int 0, .int 0]] :=
  ⟨⟨rfl, by decide⟩,
   execute_kernel_launch_arguments .float64
     (single_kernel (slot_writer .float64 0 bits_42) .COL_AGG)
     "k" 4096 1 8192 0 12288 16384 2 4 4 7 fresh_state ⟨slot_writer .float64 0 bits_42, .COL_AGG⟩
     rfl (by decide)⟩

/-- C9: for a registered kernel, the kinds of the device operations issued by
one call are, in this order, allocation, host-to-device copy, launch,
synchronization, the device-to-host copy when and only when the aggregation
kind is FULL, and free.  So the synchronization comes after the launch and
before the free, and for FULL before the device-to-host copy, which comes
before the free; the host-to-device copy comes after the allocation and before
the launch. -/
theorem execute_kernel_operation_order (T : ElemType) (ctx : SpoofCudaContext)
    (name : String) (in_ptrs : Nat) (num_inputs : Int) (side_ptrs : Nat) (num_sides : Int)
    (out_ptr scalars_ptr : Nat) (num_scalars m n grix : Int) (s : State) (op : SpoofOperator)
    (h : ctx.ops.lookup name = some op) :
    (issued s (execute_kernel T ctx name in_ptrs num_inputs side_ptrs num_sides out_ptr
        scalars_ptr num_scalars m n grix s).2).map DevOp.kind
      = [.malloc, .memcpyH2D, .launch, .synchronize]
        ++ (if op.agg_type = .FULL_AGG then [.memcpyD2H] else []) ++ [.free]
    ∧ occurs_before .launch .synchronize
        ((issued s (execute_kernel T ctx name in_ptrs num_inputs side_ptrs num_sides out_ptr
          scalars_ptr num_scalars m n grix s).2).map DevOp.kind)
    ∧ occurs_before .synchronize .free
        ((issued s (execute_kernel T ctx name in_ptrs num_inputs side_ptrs num_sides out_ptr
          scalars_ptr num_scalars m n grix s).2).map DevOp.kind)
    ∧ (op.agg_type = .FULL_AGG →
        occurs_before .synchronize .memcpyD2H
          ((issued s (execute_kernel T ctx name in_ptrs num_inputs side_ptrs num_sides out_ptr
            scalars_ptr num_scalars m n grix s).2).map DevOp.kind)
        ∧ occurs_before .memcpyD2H .free
          ((issued s (execute_kernel T ctx name in_ptrs num_inputs side_ptrs num_sides out_ptr
            scalars_ptr num_scalars m n grix s).2).map DevOp.kind))
    ∧ occurs_before .malloc .memcpyH2D
        ((issued s (execute_kernel T ctx name in_ptrs num_inputs side_ptrs num_sides out_ptr
          scalars_ptr num_scalars m n grix s).2).map DevOp.kind)
    ∧ occurs_before .memcpyH2D .launch
        ((issued s (execute_kernel T ctx name in_ptrs num_inputs side_ptrs num_sides out_ptr
          scalars_ptr num_scalars m n grix s).2).map DevOp.kind) := by
  have hk : (issued s (execute_kernel T ctx name in_ptrs num_inputs side_ptrs num_sides out_ptr
        scalars_ptr num_scalars m n grix s).2).map DevOp.kind
      = [.malloc, .memcpyH2D, .launch, .synchronize]
        ++ (if op.agg_type = .FULL_AGG then [.memcpyD2H] else []) ++ [.free] := by
    rw [execute_kernel_found_issued T ctx name in_ptrs num_inputs side_ptrs num_sides out_ptr
      scalars_ptr num_scalars m n grix s op h]
    by_cases hf : op.agg_type = .FULL_AGG <;> simp [found_ops, hf, DevOp.kind]
  refine ⟨hk, ?_⟩
  rw [hk]
  by_cases hf : op.agg_type = .FULL_AGG
  · rw [if_pos hf]
    exact ⟨by decide, by decide, fun _ => ⟨by decide, by decide⟩, by decide, by decide⟩
  · rw [if_neg hf]
    exact ⟨by decide, by decide, fun hc => absurd hc hf, by decide, by decide⟩

/-- The statement of C9 at a concrete call: the six operations of a FULL kernel. -/
theorem execute_kernel_operation_order_witness :
    (single_kernel (slot_writer .float64 0 bits_42) .FULL_AGG).ops.lookup "k"
        = some ⟨slot_writer .float64 0 bits_42, .FULL_AGG⟩
    ∧ (issued fresh_state (execute_kernel .float64
        (single_kernel (slot_writer .float64 0 bits_42) .FULL_AGG)
        "k" 4096 1 8192 0 12288 16384 0 4 4 0 fresh_state).2).map DevOp.kind
      = [.malloc, .memcpyH2D, .launch, .synchronize, .memcpyD2H, .free] :=
  ⟨rfl,
   (execute_kernel_operation_order .float64
     (single_kernel (slot_writer .float64 0 bits_42) .FULL_AGG)
     "k" 4096 1 8192 0 12288 16384 0 4 4 0 fresh_state ⟨slot_writer .float64 0 bits_42, .FULL_AGG⟩
     rfl).1⟩

/-- C6, as stated, fails for a negative extent: with `m = -1` and `n = 4` the
launch has the grid `(1, 1, 1)` and the block `(4294967295, 4, 1)`, whose
extent is not `(m, n, 1)` and whose thread count is not `m * n`. -/
theorem execute_kernel_geometry_negative_extent :
    launch_geometry (issued fresh_state (execute_kernel .float64
        (single_kernel (slot_writer .float64 0 bits_42) .NO_AGG)
        "k" 4096 1 8192 0 12288 16384 0 (-1) 4 0 fresh_state).2)
      = [(⟨1, 1, 1⟩, ⟨4294967295, 4, 1⟩)]
    ∧ ((4294967295 : Nat) : Int) ≠ -1
    ∧ ((thread_count ⟨1, 1, 1⟩ ⟨4294967295, 4, 1⟩ : Nat) : Int) ≠ -1 * 4 := by
  refine ⟨by decide, by decide, by decide⟩

/-- C6, amended: for a registered kernel and `m`, `n` that are not negative
(and in the range of `int`), the only launch issued has the grid `(1, 1, 1)`
and the block `(m, n, 1)`, and its thread count is `m * n`. -/
theorem execute_kernel_geometry (T : ElemType) (ctx : SpoofCudaContext)
    (name : String) (in_ptrs : Nat) (num_inputs : Int) (side_ptrs : Nat) (num_sides : Int)
    (out_ptr scalars_ptr : Nat) (num_scalars m n grix : Int) (s : State) (op : SpoofOperator)
    (h : ctx.ops.lookup name = some op)
    (hm0 : 0 ≤ m) (hm1 : m < 2 ^ 31) (hn0 : 0 ≤ n) (hn1 : n < 2 ^ 31) :
    launch_geometry (issued s (execute_kernel T ctx name in_ptrs num_inputs side_ptrs num_sides
        out_ptr scalars_ptr num_scalars m n grix s).2)
      = [(⟨1, 1, 1⟩, ⟨m.toNat, n.toNat, 1⟩)]
    ∧ ((m.toNat : Nat) : Int) = m
    ∧ ((n.toNat : Nat) : Int) = n
    ∧ ((thread_count ⟨1, 1, 1⟩ ⟨m.toNat, n.toNat, 1⟩ : Nat) : Int) = m * n := by
  rw [execute_kernel_found_issued T ctx name in_ptrs num_inputs side_ptrs num_sides out_ptr
    scalars_ptr num_scalars m n grix s op h]
  refine ⟨?_, Int.toNat_of_nonneg hm0, Int.toNat_of_nonneg hn0, ?_⟩
  · by_cases hf : op.agg_type = .FULL_AGG <;>
      simp [found_ops, hf, launch_geometry, dim3_1, dim3_2,
        to_unsigned_of_nonneg m hm0 hm1, to_unsigned_of_nonneg n hn0 hn1]
  · simp [thread_count, Int.toNat_of_nonneg hm0, Int.toNat_of_nonneg hn0]

/-- The amended statement of C6 at a concrete call: `m = 4`, `n = 3`. -/
theorem execute_kernel_geometry_witness :
    ((single_kernel (slot_writer .float64 0 bits_42) .NO_AGG).ops.lookup "k"
        = some ⟨slot_writer .float64 0 bits_42, .NO_AGG⟩
      ∧ (0 : Int) ≤ 4 ∧ (4 : Int) < 2 ^ 31 ∧ (0 : Int) ≤ 3 ∧ (3 : Int) < 2 ^ 31)
    ∧ launch_geometry (issued fresh_state (execute_kernel .float64
        (single_kernel (slot_writer .float64 0 bits_42) .NO_AGG)
        "k" 4096 1 8192 0 12288 16384 0 4 3 0 fresh_state).2)
      = [(⟨1, 1, 1⟩, ⟨4, 3, 1⟩)]
    ∧ ((thread_count ⟨1, 1, 1⟩ ⟨4, 3, 1⟩ : Nat) : Int) = 4 * 3 :=
  ⟨⟨rfl, by decide, by decide, by decide, by decide⟩,
   (execute_kernel_geometry .float64 (single_kernel (slot_writer .float64 0 bits_42) .NO_AGG)
     "k" 4096 1 8192 0 12288 16384 0 4 3 0 fresh_state ⟨slot_writer .float64 0 bits_42, .NO_AGG⟩
     rfl (by decide) (by decide) (by decide) (by decide)).1,
   (execute_kernel_geometry .float64 (single_kernel (slot_writer .float64 0 bits_42) .NO_AGG)
     "k" 4096 1 8192 0 12288 16384 0 4 3 0 fresh_state ⟨slot_writer .float64 0 bits_42, .NO_AGG⟩
     rfl (by decide) (by decide) (by decide) (by decide)).2.2.2⟩

/-- C2 does not hold on the code.  The kernel `"k"` is registered as FULL and
its program stores 42.0 in the element at index `num_scalars = 1` of the device
scalar buffer.  The call for `double` returns 0, not 42.0: the copy that
fetches the result reads from `scalars_ptr + num_scalars * sizeof(T)`, counted
in elements from the host pointer (address 16384 + 64), and not from the
device buffer, whose reserved element (address `2 ^ 32 + 8`) does hold 42.0
after the call. -/
theorem execute_kernel_full_agg_misses_slot :
    (execute_kernel .float64 (single_kernel (slot_writer .float64 1 bits_42) .FULL_AGG)
        "k" 4096 1 8192 0 12288 16384 1 4 4 0 fresh_state).1 = 0
    ∧ bits_42 ≠ 0
    ∧ le_value (read_bytes (execute_kernel .float64
        (single_kernel (slot_writer .float64 1 bits_42) .FULL_AGG)
        "k" 4096 1 8192 0 12288 16384 1 4 4 0 fresh_state).2.dev (2 ^ 32 + 1 * 8) 8) = bits_42
    ∧ issued fresh_state (execute_kernel .float64
        (single_kernel (slot_writer .float64 1 bits_42) .FULL_AGG)
        "k" 4096 1 8192 0 12288 16384 1 4 4 0 fresh_state).2
      = [.malloc (2 ^ 32) 9,
         .memcpy (.addr (2 ^ 32)) 16384 9 .HostToDevice,
         .launch "k" .float64 ⟨1, 1, 1⟩ ⟨4, 4, 1⟩
           [.ptr 0, .ptr 8192, .ptr 12288, .ptr (2 ^ 32), .int 4, .int 4, .int 0, .int 0, .int 0],
         .synchronize,
         .memcpy .result_var 16448 8 .DeviceToHost,
         .free (2 ^ 32)] := by
  refine ⟨by decide, by decide, by decide, by decide⟩

/-- C4 does not hold on the code for FULL.  With `T = double` and
`num_scalars = 2` the buffer allocated for a FULL kernel has 17 bytes, one byte
more than the 16 bytes of the two scalars, where one more element would
give `(2 + 1) * sizeof(T) = 24` bytes. -/
theorem execute_kernel_full_agg_buffer_size :
    (issued fresh_state (execute_kernel .float64
        (single_kernel (slot_writer .float64 2 bits_42) .FULL_AGG)
        "k" 4096 1 8192 0 12288 16384 2 4 4 0 fresh_state).2).filter
          (fun o => decide (o.kind = .malloc))
      = [.malloc (2 ^ 32) 17]
    ∧ dev_buf_size .float64 .FULL_AGG 2 = 17
    ∧ (2 + 1) * sizeof .float64 = 24
    ∧ dev_buf_size .float64 .NO_AGG 2 = 2 * sizeof .float64 := by
  refine ⟨by decide, by decide, by decide, by decide⟩

/-- C7 does not hold on the code for `float`.  The entry point `execute_f`
calls the `float` instantiation of `execute_kernel`, and the kernel it launches
is instantiated for `double`, as is the one `execute_d` launches. -/
theorem execute_f_launches_double :
    launch_types (issued fresh_state (execute_f
        (single_kernel (slot_writer .float32 0 0x42280000) .NO_AGG)
        "k" ⟨4096, 1⟩ ⟨8192, 0⟩ 12288 ⟨16384, 0⟩ 4 4 0 fresh_state).2) = [.float64]
    ∧ ElemType.float64 ≠ ElemType.float32
    ∧ launch_types (issued fresh_state (execute_d
        (single_kernel (slot_writer .float64 0 bits_42) .NO_AGG)
        "k" ⟨4096, 1⟩ ⟨8192, 0⟩ 12288 ⟨16384, 0⟩ 4 4 0 fresh_state).2) = [.float64] := by
  refine ⟨by decide, by decide, by decide⟩

/-- C10 does not hold on the code for FULL.  The entry point `execute_d` is
called with a Java array of two scalars (16 bytes) for a FULL kernel; the
host-to-device copy reads 17 bytes from `scalars_ptr`, one byte past the end of
the array. -/
theorem execute_d_full_agg_copy_count :
    (issued fresh_state (execute_d
        (single_kernel (slot_writer .float64 2 bits_42) .FULL_AGG)
        "k" ⟨4096, 1⟩ ⟨8192, 0⟩ 12288 ⟨16384, 2⟩ 4 4 0 fresh_state).2).filter
          (fun o => decide (o.kind = .memcpyH2D))
      = [.memcpy (.addr (2 ^ 32)) 16384 17 .HostToDevice]
    ∧ 2 * sizeof .float64 = 16
    ∧ 2 * sizeof .float64 < 17 := by
  refine ⟨by decide, by decide, by decide⟩

end Spoof
